import Mathlib

/-!
Verification of the resource-sizing / autoscaling core of `src/core/profiles.py`
(`k8s-golden-path`).

Embedding conventions:
* Python `str` values are embedded as `List Char` (`PyStr`).
* Python `int` is embedded as `ℤ`; Python `float` is embedded as `ℚ`
  (float literals such as `0.10`, `0.8` become the exact rationals `1/10`, `4/5`).
* Python `int(x)` applied to a float truncates toward zero (`pyTrunc`);
  Python `//` on integers is floor division (`Int.fdiv`).
* Fallible paths (`int(...)` parse errors, the `kubectl` query inside the
  `try`) are embedded with `Option` / `Except`; the bare `except` of
  `_get_cluster_capacity` is the `match`/fallback in its embedding.
* The external `kubectl get nodes -o json` call and the surrounding JSON
  decoding are the system boundary: they are embedded as an
  `Except PyErr (List NodeAlloc)` argument (`.error` = the subprocess or the
  JSON layer raised; `.ok` = the decoded per-node allocatable strings).
-/

abbrev PyStr := List Char

abbrev PyErr := List Char

/-- `class DeploymentTier(str, Enum)` with members `PRODUCTION = "prod"`,
`DEVELOPMENT = "dev"`. -/
inductive DeploymentTier
  | production
  | development
deriving DecidableEq, Repr

/-- `class AppLanguage(str, Enum)` with members java / go / python / dotnet. -/
inductive AppLanguage
  | java
  | go
  | python
  | dotnet
deriving DecidableEq, Repr

/-- The pydantic model `HighThroughputAPI` (the `AppProfile` of the spec):
one field per Python field, defaults as declared in the source. -/
structure HighThroughputAPI where
  app_namespace : PyStr := "perf-test".toList
  app_name : PyStr
  image_repo : PyStr := "my-docker-reg/app".toList
  peak_rps : ℤ
  latency_sla_ms : ℤ := 200
  tier : DeploymentTier := DeploymentTier.production
  monitoring_enabled : Bool := true
  metrics_path : PyStr := "/metrics".toList
  metrics_port : ℤ := 9898
  service_port : ℤ := 80
  container_port : ℤ := 9898
  ingress_host : PyStr := "api.example.com".toList
  cpu_percent : ℚ := 1/10
  mem_percent : ℚ := 3/20
  language : AppLanguage := AppLanguage.java
deriving DecidableEq

/-- pydantic construction of `HighThroughputAPI(app_name=…, peak_rps=…, tier=…)`:
the only declared constraint is `peak_rps : int = Field(..., gt=0)`; every other
field (including `app_name : str`) is accepted as given.  Remaining fields take
their declared defaults, as in the CLI caller. -/
def mkHighThroughputAPI (app_name : PyStr) (peak_rps : ℤ) (tier : DeploymentTier) :
    Except PyErr HighThroughputAPI :=
  if 0 < peak_rps then
    Except.ok { app_name := app_name, peak_rps := peak_rps, tier := tier }
  else
    Except.error "ensure this value is greater than 0".toList

/-- Value of `get_labels`: the dict
`app / tier=high-throughput / managed-by=performance-portal`. -/
structure LabelSet where
  app : PyStr
  tier : PyStr
  managed_by : PyStr
deriving DecidableEq

def get_labels (p : HighThroughputAPI) : LabelSet :=
  { app := p.app_name
    tier := "high-throughput".toList
    managed_by := "performance-portal".toList }

/-- One entry of the HPA `metrics` list: either the `Resource` CPU-utilization
metric or the `Pods` custom metric (whose `averageValue` is a string, as
`str(target_rps)` in the source). -/
inductive HpaMetric
  | resource (name : PyStr) (targetType : PyStr) (averageUtilization : ℤ)
  | pods (metricName : PyStr) (targetType : PyStr) (averageValue : PyStr)
deriving DecidableEq

structure HpaScaleTargetRef where
  apiVersion : PyStr
  kind : PyStr
  name : PyStr
deriving DecidableEq

structure HpaSpec where
  scaleTargetRef : HpaScaleTargetRef
  minReplicas : ℤ
  maxReplicas : ℤ
  metrics : List HpaMetric
deriving DecidableEq

structure HpaMetadata where
  name : PyStr
  namespaceName : PyStr
  labels : LabelSet
deriving DecidableEq

structure HpaConfig where
  apiVersion : PyStr
  kind : PyStr
  metadata : HpaMetadata
  spec : HpaSpec
deriving DecidableEq

/-- `str(…)` on a Python int. -/
def pyStrOfInt (n : ℤ) : PyStr := (toString n).toList

/-- `get_hpa_config`: `min_pods = max(3, peak_rps // 200)`,
`max_pods = min_pods * 2`, `target_rps = 1000`, and the manifest dict. -/
def get_hpa_config (p : HighThroughputAPI) : HpaConfig :=
  let min_pods : ℤ := max 3 (Int.fdiv p.peak_rps 200)
  let max_pods : ℤ := min_pods * 2
  let target_rps : ℤ := 1000
  { apiVersion := "autoscaling/v2".toList
    kind := "HorizontalPodAutoscaler".toList
    metadata :=
      { name := p.app_name
        namespaceName := p.app_namespace
        labels := get_labels p }
    spec :=
      { scaleTargetRef :=
          { apiVersion := "apps/v1".toList
            kind := "Deployment".toList
            name := p.app_name }
        minReplicas := min_pods
        maxReplicas := max_pods
        metrics :=
          [ HpaMetric.resource "cpu".toList "Utilization".toList 70,
            HpaMetric.pods "http_requests_per_second".toList "AverageValue".toList
              (pyStrOfInt target_rps) ] } }

/-- Value of `get_deployment_config` (only the returned dict key `replicas`;
the local `terminationGracePeriodSeconds` is computed and dropped, as in the
source). -/
structure DeploymentConfig where
  replicas : ℤ
deriving DecidableEq

set_option linter.unusedVariables false in
def get_deployment_config (p : HighThroughputAPI) : DeploymentConfig :=
  let terminationGracePeriodSeconds : ℤ :=
    match p.tier with
    | DeploymentTier.production => 60
    | DeploymentTier.development => 30
  { replicas := (get_hpa_config p).spec.minReplicas }

/-- `str.strip()` whitespace set (space, tab, LF, VT, FF, CR), by code point. -/
def isPyWs (c : Char) : Bool :=
  c.toNat = 32 || c.toNat = 9 || c.toNat = 10 || c.toNat = 11 || c.toNat = 12 || c.toNat = 13

/-- The double-quote character of `.strip(CHR34)`. -/
def isDq (c : Char) : Bool := c.toNat = 34

/-- The single-quote character of `.strip(CHR39)`. -/
def isSq (c : Char) : Bool := c.toNat = 39

/-- ASCII decimal digit, by code point. -/
def isDigitChar (c : Char) : Bool := 48 ≤ c.toNat && c.toNat ≤ 57

def dropTrailingWhile (p : Char → Bool) (s : PyStr) : PyStr :=
  (s.reverse.dropWhile p).reverse

/-- Python `str.strip(chars)` for a one-character class: remove leading and
trailing characters satisfying `p`. -/
def pyStripFn (p : Char → Bool) (s : PyStr) : PyStr :=
  dropTrailingWhile p (s.dropWhile p)

/-- The preprocessing chain of `_parse_memory_to_mib`:
`mem_str.strip().strip(CHR34).strip(CHR39)`. -/
def pyStripQuotes (s : PyStr) : PyStr :=
  pyStripFn isSq (pyStripFn isDq (pyStripFn isPyWs s))

def digitVal (c : Char) : ℕ := c.toNat - 48

def digitsToNat (ds : PyStr) : ℕ :=
  ds.foldl (fun a c => 10 * a + digitVal c) 0

/-- Python `int(s)` on a string: strips whitespace, accepts an optional
sign followed by a nonempty run of decimal digits, raises `ValueError`
(here: `none`) otherwise.  (Python additionally allows single underscores
between digits; no caller produces them, and they are not modelled.) -/
def pyInt (s : PyStr) : Option ℤ :=
  match pyStripFn isPyWs s with
  | [] => none
  | c :: rest =>
    if c.toNat = 45 then
      if rest ≠ [] ∧ rest.all isDigitChar then some (-(digitsToNat rest : ℤ)) else none
    else if c.toNat = 43 then
      if rest ≠ [] ∧ rest.all isDigitChar then some ((digitsToNat rest : ℤ)) else none
    else if (c :: rest).all isDigitChar then some ((digitsToNat (c :: rest) : ℤ)) else none

/-- Python `s.replace(ab, empty)` for a two-character pattern `ab`:
remove every (non-overlapping, left-to-right) occurrence. -/
def pyReplace2 (a b : Char) : PyStr → PyStr
  | [] => []
  | [c] => [c]
  | c₁ :: c₂ :: rest =>
    if c₁ = a ∧ c₂ = b then pyReplace2 a b rest
    else c₁ :: pyReplace2 a b (c₂ :: rest)

/-- `_parse_memory_to_mib`: strip whitespace and quotes, then dispatch on the
`Ki` / `Mi` / `Gi` suffix (`endswith`, checked in that order), removing the
suffix pattern with `replace` and converting with `int(...)`; an unsuffixed
value is raw bytes, floor-divided by `1024 * 1024`. -/
def _parse_memory_to_mib (s : PyStr) : Option ℤ :=
  let t := pyStripQuotes s
  if ['K','i'] <:+ t then
    (pyInt (pyReplace2 'K' 'i' t)).map (fun n => Int.fdiv n 1024)
  else if ['M','i'] <:+ t then
    pyInt (pyReplace2 'M' 'i' t)
  else if ['G','i'] <:+ t then
    (pyInt (pyReplace2 'G' 'i' t)).map (fun n => n * 1024)
  else
    (pyInt t).map (fun n => Int.fdiv n (1024 * 1024))

/-- One node's `status.allocatable` strings, as decoded from the
`kubectl get nodes -o json` response. -/
structure NodeAlloc where
  cpu : PyStr
  memory : PyStr
deriving DecidableEq

/-- CPU standardisation per node:
`int(cpu.replace(m, empty)) if m in cpu else int(cpu) * 1000`. -/
def parseNodeCpu (s : PyStr) : Option ℤ :=
  if 'm' ∈ s then pyInt (s.filter (fun c => c != 'm'))
  else (pyInt s).map (fun n => n * 1000)

/-- The dict returned by `_get_cluster_capacity`. -/
structure ClusterCapacity where
  avg_cpu : ℤ
  avg_mem : ℤ
  node_count : ℕ
deriving DecidableEq

/-- The accumulation loop over `nodes`: `total_cpu += cpu_m`,
`total_mem += mem_mib`, with any per-node parse failure aborting the `try`. -/
def sumNodeTotals : List NodeAlloc → Option (ℤ × ℤ)
  | [] => some (0, 0)
  | n :: rest => do
    let cpu_m ← parseNodeCpu n.cpu
    let mem_mib ← _parse_memory_to_mib n.memory
    let (tc, tm) ← sumNodeTotals rest
    pure (tc + cpu_m, tm + mem_mib)

/-- `_get_cluster_capacity`.  The argument is the outcome of the
`kubectl` subprocess plus JSON decoding (`.error` = that layer raised).
Everything inside the `try` that can raise — the query itself, a per-node
parse failure, and the `ZeroDivisionError` of the averages on an empty node
list — collapses to the hard-coded fallback, as the bare `except` does. -/
def _get_cluster_capacity (q : Except PyErr (List NodeAlloc)) : ClusterCapacity :=
  match q with
  | Except.error _ => { avg_cpu := 8000, avg_mem := 16000, node_count := 1 }
  | Except.ok nodes =>
    match sumNodeTotals nodes with
    | none => { avg_cpu := 8000, avg_mem := 16000, node_count := 1 }
    | some (total_cpu, total_mem) =>
      if nodes.length = 0 then { avg_cpu := 8000, avg_mem := 16000, node_count := 1 }
      else
        { avg_cpu := Int.fdiv total_cpu nodes.length
          avg_mem := Int.fdiv total_mem nodes.length
          node_count := nodes.length }

/-- Python `int(x)` on a float: truncation toward zero. -/
def pyTrunc (q : ℚ) : ℤ :=
  if 0 ≤ q then q.floor else q.ceil

/-- The dict returned by `get_resources`.  The Python values are the strings
`f-string(req_cpu)m`, `f-string(req_mem)Mi`, …; the embedded fields are their
numeric payloads (milli-units / MiB). -/
structure ResourcesConfig where
  cpu_request : ℤ
  cpu_limit : ℤ
  memory_request : ℤ
  memory_limit : ℤ
deriving DecidableEq

/-- Body of `get_resources` after `cap = self._get_cluster_capacity()`. -/
def get_resources_with_cap (p : HighThroughputAPI) (cap : ClusterCapacity) : ResourcesConfig :=
  let req_cpu : ℤ := pyTrunc ((cap.avg_cpu : ℚ) * p.cpu_percent)
  let req_mem : ℤ := pyTrunc ((cap.avg_mem : ℚ) * p.mem_percent)
  match p.tier with
  | DeploymentTier.production =>
    { cpu_request := req_cpu
      cpu_limit := req_cpu * 2
      memory_request := req_mem
      memory_limit := req_mem }
  | DeploymentTier.development =>
    { cpu_request := Int.fdiv req_cpu 2
      cpu_limit := req_cpu
      memory_request := Int.fdiv req_mem 2
      memory_limit := req_mem }

def get_resources (p : HighThroughputAPI) (q : Except PyErr (List NodeAlloc)) :
    ResourcesConfig :=
  get_resources_with_cap p (_get_cluster_capacity q)

/-- The `print` side effects of `validate_deployment`, by their interpolated
payloads: the warning header naming the app, the demand line naming the max
replica count and projected demand, and the threshold line. -/
inductive PrintLine
  | warnTooLarge (app_name : PyStr)
  | warnNeeds (max_pods : ℤ) (total_req_cpu : ℚ)
  | warnLimit (safety_threshold : ℚ)
deriving DecidableEq

/-- `total_req_cpu = (cap.avg_cpu * self.cpu_percent) * max_pods`. -/
def total_req_cpu (p : HighThroughputAPI) (cap : ClusterCapacity) : ℚ :=
  ((cap.avg_cpu : ℚ) * p.cpu_percent) * ((get_hpa_config p).spec.maxReplicas : ℚ)

/-- `safety_threshold = cap.avg_cpu * cap.node_count * 0.8`. -/
def safety_threshold (cap : ClusterCapacity) : ℚ :=
  (cap.avg_cpu : ℚ) * (cap.node_count : ℚ) * (4/5)

/-- Body of `validate_deployment` after `cap = self._get_cluster_capacity()`:
the value is the list of printed lines (empty when no breach). -/
def validate_deployment_with_cap (p : HighThroughputAPI) (cap : ClusterCapacity) :
    List PrintLine :=
  if total_req_cpu p cap > safety_threshold cap then
    [ PrintLine.warnTooLarge p.app_name,
      PrintLine.warnNeeds (get_hpa_config p).spec.maxReplicas (total_req_cpu p cap),
      PrintLine.warnLimit (safety_threshold cap) ]
  else []

def validate_deployment (p : HighThroughputAPI) (q : Except PyErr (List NodeAlloc)) :
    List PrintLine :=
  validate_deployment_with_cap p (_get_cluster_capacity q)

/-- A sample production profile: the end-to-end scenario of the spec
(`peak_rps=500`, default tier/footprint). -/
def profAlpha : HighThroughputAPI :=
  { app_name := "alpha".toList, peak_rps := 500 }

/-- A sample profile sharing `peak_rps = 500` with `profAlpha` but differing
in name, tier and CPU footprint. -/
def profBeta : HighThroughputAPI :=
  { app_name := "beta".toList
    peak_rps := 500
    tier := DeploymentTier.development
    cpu_percent := 1/2 }

/-- The spec's sample capacity (identical to the fallback values):
8000 milli-units CPU, 16000 MiB memory, one node. -/
def capSample : ClusterCapacity :=
  { avg_cpu := 8000, avg_mem := 16000, node_count := 1 }

/-- A node whose allocatable CPU string is not numeric. -/
def badNode : NodeAlloc :=
  { cpu := "4x".toList, memory := "1Gi".toList }

/-- C1: for every profile (in particular every profile with positive
`peak_rps`), `get_hpa_config` returns `minReplicas = max(3, ⌊peak_rps / 200⌋)`
and `maxReplicas = 2 × minReplicas`; hence the invariant `minReplicas ≥ 3`
and `maxReplicas = 2 × minReplicas` always holds. -/
theorem hpa_replica_bounds (p : HighThroughputAPI) :
    (get_hpa_config p).spec.minReplicas = max 3 (Int.fdiv p.peak_rps 200) ∧
    (get_hpa_config p).spec.maxReplicas = 2 * (get_hpa_config p).spec.minReplicas ∧
    3 ≤ (get_hpa_config p).spec.minReplicas := by
  refine ⟨rfl, ?_, le_max_left _ _⟩
  show max 3 (Int.fdiv p.peak_rps 200) * 2 = 2 * max 3 (Int.fdiv p.peak_rps 200)
  ring

/-- C10: the initial replica count of `get_deployment_config` equals the
`minReplicas` of `get_hpa_config`, and is therefore always at least 3. -/
theorem deployment_replicas_eq_hpa_min (p : HighThroughputAPI) :
    (get_deployment_config p).replicas = (get_hpa_config p).spec.minReplicas ∧
    3 ≤ (get_deployment_config p).replicas := by
  exact ⟨rfl, le_max_left _ _⟩

/-- C8: `get_hpa_config` is a pure function consulting no capacity snapshot
(it takes only the profile); its replica bounds and its metrics list depend on
`peak_rps` alone, and the metrics are always the CPU resource metric with
target average utilization 70 followed by the pods metric
`http_requests_per_second` with target average value `str(1000)`. -/
theorem hpa_depends_only_on_peak_rps (p₁ p₂ : HighThroughputAPI)
    (h : p₁.peak_rps = p₂.peak_rps) :
    (get_hpa_config p₁).spec.minReplicas = (get_hpa_config p₂).spec.minReplicas ∧
    (get_hpa_config p₁).spec.maxReplicas = (get_hpa_config p₂).spec.maxReplicas ∧
    (get_hpa_config p₁).spec.metrics = (get_hpa_config p₂).spec.metrics ∧
    (get_hpa_config p₁).spec.metrics =
      [ HpaMetric.resource "cpu".toList "Utilization".toList 70,
        HpaMetric.pods "http_requests_per_second".toList "AverageValue".toList
          (pyStrOfInt 1000) ] := by
  refine ⟨?_, ?_, rfl, rfl⟩
  · show max 3 (Int.fdiv p₁.peak_rps 200) = max 3 (Int.fdiv p₂.peak_rps 200)
    rw [h]
  · show max 3 (Int.fdiv p₁.peak_rps 200) * 2 = max 3 (Int.fdiv p₂.peak_rps 200) * 2
    rw [h]

/-- C8 witness: two profiles that differ in name, tier and footprint but share
`peak_rps = 500` get identical replica bounds and the two fixed metrics. -/
theorem hpa_depends_only_on_peak_rps_witness :
    profAlpha.peak_rps = profBeta.peak_rps ∧
    (get_hpa_config profAlpha).spec.minReplicas =
      (get_hpa_config profBeta).spec.minReplicas ∧
    (get_hpa_config profAlpha).spec.metrics =
      [ HpaMetric.resource "cpu".toList "Utilization".toList 70,
        HpaMetric.pods "http_requests_per_second".toList "AverageValue".toList
          (pyStrOfInt 1000) ] := by
  have h := hpa_depends_only_on_peak_rps profAlpha profBeta rfl
  exact ⟨rfl, h.1, h.2.2.2⟩

/-- Batteries' computable `Rat.floor` agrees with the `Int.floor` of the
`FloorRing` instance. -/
theorem ratFloor_eq_intFloor (q : ℚ) : q.floor = ⌊q⌋ := by
  rw [Rat.floor_def', ← Rat.floor_def]

/-- Python float truncation agrees with `⌊·⌋` on nonnegative rationals. -/
theorem pyTrunc_eq_floor (q : ℚ) (h : 0 ≤ q) : pyTrunc q = ⌊q⌋ := by
  rw [pyTrunc, if_pos h, ratFloor_eq_intFloor]

/-- The maximum replica count is never negative (it is at least 6). -/
theorem maxReplicas_nonneg (p : HighThroughputAPI) :
    0 ≤ (get_hpa_config p).spec.maxReplicas := by
  show (0 : ℤ) ≤ max 3 (Int.fdiv p.peak_rps 200) * 2
  have h := le_max_left (3 : ℤ) (Int.fdiv p.peak_rps 200)
  omega

/-- C2: `validate_deployment` emits its warning iff
`avg_cpu × cpu_percent × maxReplicas > avg_cpu × node_count × 0.8` (strict);
in particular equality with the threshold is not a breach. -/
theorem breach_iff_strict_threshold (p : HighThroughputAPI) (cap : ClusterCapacity) :
    (validate_deployment_with_cap p cap ≠ [] ↔
      (cap.avg_cpu : ℚ) * p.cpu_percent * ((get_hpa_config p).spec.maxReplicas : ℚ) >
        (cap.avg_cpu : ℚ) * (cap.node_count : ℚ) * (4/5)) ∧
    ((cap.avg_cpu : ℚ) * p.cpu_percent * ((get_hpa_config p).spec.maxReplicas : ℚ) =
        (cap.avg_cpu : ℚ) * (cap.node_count : ℚ) * (4/5) →
      validate_deployment_with_cap p cap = []) := by
  have hcond : (total_req_cpu p cap > safety_threshold cap) ↔
      ((cap.avg_cpu : ℚ) * p.cpu_percent * ((get_hpa_config p).spec.maxReplicas : ℚ) >
        (cap.avg_cpu : ℚ) * (cap.node_count : ℚ) * (4/5)) := Iff.rfl
  constructor
  · rw [validate_deployment_with_cap]
    split_ifs with h
    · simpa using hcond.mp h
    · simpa using fun hgt => h (hcond.mpr hgt)
  · intro he
    rw [validate_deployment_with_cap, if_neg]
    rw [hcond, he]
    exact lt_irrefl _

/-- C9: for every profile and every query outcome, `validate_deployment` is a
total function (no exception escapes, nothing aborts, the profile is not
touched), and its only output is either no print at all or the three-line
warning carrying exactly the application name, the maximum replica count, the
projected demand and the threshold. -/
theorem validate_effects_only_warning (p : HighThroughputAPI)
    (q : Except PyErr (List NodeAlloc)) :
    validate_deployment p q = [] ∨
    validate_deployment p q =
      [ PrintLine.warnTooLarge p.app_name,
        PrintLine.warnNeeds (get_hpa_config p).spec.maxReplicas
          (total_req_cpu p (_get_cluster_capacity q)),
        PrintLine.warnLimit (safety_threshold (_get_cluster_capacity q)) ] := by
  rw [validate_deployment, validate_deployment_with_cap]
  split_ifs with h
  · exact Or.inr rfl
  · exact Or.inl rfl

/-- C7: increasing `cpu_percent` with all other inputs fixed never un-flags a
breach (on a capacity with nonnegative average CPU, as every real snapshot
and the fallback have). -/
theorem breach_monotone_cpu_percent (p : HighThroughputAPI) (cap : ClusterCapacity)
    (hcpu : 0 ≤ cap.avg_cpu) (q₁ q₂ : ℚ) (hq : q₁ ≤ q₂)
    (hb : validate_deployment_with_cap { p with cpu_percent := q₁ } cap ≠ []) :
    validate_deployment_with_cap { p with cpu_percent := q₂ } cap ≠ [] := by
  have hM : (0 : ℚ) ≤ ((get_hpa_config p).spec.maxReplicas : ℚ) := by
    exact_mod_cast maxReplicas_nonneg p
  have hA : (0 : ℚ) ≤ (cap.avg_cpu : ℚ) := by exact_mod_cast hcpu
  have h1 : total_req_cpu { p with cpu_percent := q₁ } cap > safety_threshold cap := by
    by_contra hc
    rw [validate_deployment_with_cap, if_neg hc] at hb
    exact hb rfl
  have hle : total_req_cpu { p with cpu_percent := q₁ } cap ≤
      total_req_cpu { p with cpu_percent := q₂ } cap := by
    show ((cap.avg_cpu : ℚ) * q₁) * ((get_hpa_config p).spec.maxReplicas : ℚ) ≤
      ((cap.avg_cpu : ℚ) * q₂) * ((get_hpa_config p).spec.maxReplicas : ℚ)
    exact mul_le_mul_of_nonneg_right (mul_le_mul_of_nonneg_left hq hA) hM
  have h2 : total_req_cpu { p with cpu_percent := q₂ } cap > safety_threshold cap :=
    lt_of_lt_of_le h1 hle
  rw [validate_deployment_with_cap, if_pos h2]
  simp

/-- C7 witness: on the sample capacity, a profile with `peak_rps = 1000` and
`cpu_percent = 1/5` already breaches, and so does the same profile at
`cpu_percent = 1/4`. -/
theorem breach_monotone_cpu_percent_witness :
    (0 : ℤ) ≤ capSample.avg_cpu ∧ (1/5 : ℚ) ≤ (1/4 : ℚ) ∧
    validate_deployment_with_cap
      { app_name := "hot".toList, peak_rps := 1000, cpu_percent := 1/5 } capSample ≠ [] ∧
    validate_deployment_with_cap
      { app_name := "hot".toList, peak_rps := 1000, cpu_percent := 1/4 } capSample ≠ [] := by
  have hmax : (get_hpa_config
      { app_name := "hot".toList, peak_rps := 1000, cpu_percent := 1/5 }).spec.maxReplicas
      = 10 := by decide
  have hbase : validate_deployment_with_cap
      { app_name := "hot".toList, peak_rps := 1000, cpu_percent := 1/5 } capSample ≠ [] := by
    rw [validate_deployment_with_cap, if_pos]
    · simp
    · show total_req_cpu _ capSample > safety_threshold capSample
      rw [total_req_cpu, safety_threshold, hmax]
      norm_num [capSample]
  refine ⟨by norm_num [capSample], by norm_num, hbase, ?_⟩
  exact breach_monotone_cpu_percent
    { app_name := "hot".toList, peak_rps := 1000, cpu_percent := 1/5 } capSample
    (by norm_num [capSample]) (1/5) (1/4) (by norm_num) hbase

/-- C4: with base requests `b_c = ⌊avg_cpu × cpu_percent⌋` and
`b_m = ⌊avg_mem × mem_percent⌋` (on nonnegative inputs, where Python's float
truncation is the floor): production returns `(b_c, 2·b_c, b_m, b_m)`,
development returns `(⌊b_c/2⌋, b_c, ⌊b_m/2⌋, b_m)`; consequently, on identical
inputs, development's memory limit equals production's memory request and
development's CPU limit equals production's CPU request. -/
theorem resource_tiering (p : HighThroughputAPI) (cap : ClusterCapacity)
    (h₁ : 0 ≤ cap.avg_cpu) (h₂ : 0 ≤ cap.avg_mem)
    (h₃ : 0 ≤ p.cpu_percent) (h₄ : 0 ≤ p.mem_percent) :
    (p.tier = DeploymentTier.production →
      get_resources_with_cap p cap =
        { cpu_request := ⌊(cap.avg_cpu : ℚ) * p.cpu_percent⌋
          cpu_limit := 2 * ⌊(cap.avg_cpu : ℚ) * p.cpu_percent⌋
          memory_request := ⌊(cap.avg_mem : ℚ) * p.mem_percent⌋
          memory_limit := ⌊(cap.avg_mem : ℚ) * p.mem_percent⌋ }) ∧
    (p.tier = DeploymentTier.development →
      get_resources_with_cap p cap =
        { cpu_request := Int.fdiv ⌊(cap.avg_cpu : ℚ) * p.cpu_percent⌋ 2
          cpu_limit := ⌊(cap.avg_cpu : ℚ) * p.cpu_percent⌋
          memory_request := Int.fdiv ⌊(cap.avg_mem : ℚ) * p.mem_percent⌋ 2
          memory_limit := ⌊(cap.avg_mem : ℚ) * p.mem_percent⌋ }) ∧
    (get_resources_with_cap { p with tier := DeploymentTier.development } cap).memory_limit
      = (get_resources_with_cap { p with tier := DeploymentTier.production } cap).memory_request ∧
    (get_resources_with_cap { p with tier := DeploymentTier.development } cap).cpu_limit
      = (get_resources_with_cap { p with tier := DeploymentTier.production } cap).cpu_request := by
  have hc : pyTrunc ((cap.avg_cpu : ℚ) * p.cpu_percent) = ⌊(cap.avg_cpu : ℚ) * p.cpu_percent⌋ :=
    pyTrunc_eq_floor _ (mul_nonneg (by exact_mod_cast h₁) h₃)
  have hm : pyTrunc ((cap.avg_mem : ℚ) * p.mem_percent) = ⌊(cap.avg_mem : ℚ) * p.mem_percent⌋ :=
    pyTrunc_eq_floor _ (mul_nonneg (by exact_mod_cast h₂) h₄)
  refine ⟨fun ht => ?_, fun ht => ?_, rfl, rfl⟩
  · rw [get_resources_with_cap, ht]
    simp only [hc, hm]
    rw [ResourcesConfig.mk.injEq]
    exact ⟨rfl, mul_comm _ _, rfl, rfl⟩
  · rw [get_resources_with_cap, ht]
    simp only [hc, hm]

/-- C4 witness: the spec's end-to-end scenario — `peak_rps=500`, production
defaults, capacity 8000m/16000MiB/1 node — sizes to requests 800m/2400MiB
with limits 1600m/2400MiB. -/
theorem resource_tiering_witness :
    get_resources_with_cap profAlpha capSample =
      { cpu_request := 800, cpu_limit := 1600, memory_request := 2400, memory_limit := 2400 } := by
  have h := (resource_tiering profAlpha capSample
    (by norm_num [capSample]) (by norm_num [capSample])
    (by norm_num [profAlpha]) (by norm_num [profAlpha])).1 rfl
  rw [h]
  have e₁ : ((capSample.avg_cpu : ℚ)) * profAlpha.cpu_percent = ((800 : ℤ) : ℚ) := by
    norm_num [capSample, profAlpha]
  have e₂ : ((capSample.avg_mem : ℚ)) * profAlpha.mem_percent = ((2400 : ℤ) : ℚ) := by
    norm_num [capSample, profAlpha]
  rw [ResourcesConfig.mk.injEq]
  rw [e₁, e₂, Int.floor_intCast]
  norm_num

/-- C6 counterexample: a profile with an *empty* application name and a valid
`peak_rps` is accepted by construction — the claimed rejection of empty names
does not happen (pydantic constrains only `peak_rps`). -/
theorem profile_validation_cex :
    mkHighThroughputAPI [] 5 DeploymentTier.production =
      Except.ok { app_name := [], peak_rps := 5, tier := DeploymentTier.production } := by
  rw [mkHighThroughputAPI, if_pos]
  norm_num

/-- C6 amended: constructing an `AppProfile` with non-positive `peak_rps` is
rejected with pydantic's descriptive validation error before any sizing runs,
and every positive `peak_rps` is accepted as given — the application name
(empty included) is not validated. -/
theorem profile_validation_amended (nm : PyStr) (rps : ℤ) (t : DeploymentTier) :
    (rps ≤ 0 → mkHighThroughputAPI nm rps t =
      Except.error "ensure this value is greater than 0".toList) ∧
    (0 < rps → mkHighThroughputAPI nm rps t =
      Except.ok { app_name := nm, peak_rps := rps, tier := t }) := by
  constructor
  · intro h
    rw [mkHighThroughputAPI, if_neg (by omega)]
  · intro h
    rw [mkHighThroughputAPI, if_pos h]

/-- C6 amended witness: `peak_rps = -1` is rejected, `peak_rps = 7` is
accepted. -/
theorem profile_validation_amended_witness :
    mkHighThroughputAPI "svc".toList (-1) DeploymentTier.production =
      Except.error "ensure this value is greater than 0".toList ∧
    mkHighThroughputAPI "svc".toList 7 DeploymentTier.development =
      Except.ok { app_name := "svc".toList, peak_rps := 7, tier := DeploymentTier.development } :=
  ⟨(profile_validation_amended "svc".toList (-1) DeploymentTier.production).1 (by norm_num),
   (profile_validation_amended "svc".toList 7 DeploymentTier.development).2 (by norm_num)⟩

/-- A single node whose CPU or memory string fails to parse poisons the whole
accumulation loop. -/
theorem sumNodeTotals_eq_none_of_bad (nodes : List NodeAlloc) (n : NodeAlloc)
    (hn : n ∈ nodes)
    (hbad : parseNodeCpu n.cpu = none ∨ _parse_memory_to_mib n.memory = none) :
    sumNodeTotals nodes = none := by
  induction nodes with
  | nil => cases hn
  | cons m rest ih =>
    rcases List.mem_cons.mp hn with rfl | hmem
    · rcases hbad with hc | hm₂
      · simp [sumNodeTotals, hc]
      · cases hcpu : parseNodeCpu n.cpu <;> simp [sumNodeTotals, hcpu, hm₂]
    · cases hcpu : parseNodeCpu m.cpu
      · simp [sumNodeTotals, hcpu]
      · cases hmm : _parse_memory_to_mib m.memory
        · simp [sumNodeTotals, hcpu, hmm]
        · simp [sumNodeTotals, hcpu, hmm, ih hmem]

/-- C5: whenever the query raises (whatever the message), or any node's
CPU/memory string fails to parse, or the node list is empty (the
`ZeroDivisionError` of the averaging), `_get_cluster_capacity` returns exactly
`avg_cpu=8000, avg_mem=16000, node_count=1` — no partial result, no error to
the caller. -/
theorem capacity_fallback :
    (∀ msg : PyErr, _get_cluster_capacity (Except.error msg) =
      { avg_cpu := 8000, avg_mem := 16000, node_count := 1 }) ∧
    (∀ (nodes : List NodeAlloc) (n : NodeAlloc), n ∈ nodes →
      (parseNodeCpu n.cpu = none ∨ _parse_memory_to_mib n.memory = none) →
      _get_cluster_capacity (Except.ok nodes) =
        { avg_cpu := 8000, avg_mem := 16000, node_count := 1 }) ∧
    (_get_cluster_capacity (Except.ok []) =
      { avg_cpu := 8000, avg_mem := 16000, node_count := 1 }) := by
  refine ⟨fun msg => rfl, fun nodes n hn hbad => ?_, rfl⟩
  rw [_get_cluster_capacity, sumNodeTotals_eq_none_of_bad nodes n hn hbad]

/-- C5 witness: a node reporting the unparsable CPU string `4x` activates the
fallback wholesale. -/
theorem capacity_fallback_witness :
    badNode ∈ [badNode] ∧ parseNodeCpu badNode.cpu = none ∧
    _get_cluster_capacity (Except.ok [badNode]) =
      { avg_cpu := 8000, avg_mem := 16000, node_count := 1 } :=
  ⟨by decide, by decide,
   capacity_fallback.2.1 [badNode] badNode (by decide) (Or.inl (by decide))⟩

/-- Digit characters sit in code points 48–57. -/
theorem isDigitChar_toNat {c : Char} (h : isDigitChar c = true) :
    48 ≤ c.toNat ∧ c.toNat ≤ 57 := by
  simpa [isDigitChar] using h

/-- A digit character is neither stripped whitespace nor either quote. -/
theorem digit_not_special {c : Char} (h : isDigitChar c = true) :
    isPyWs c = false ∧ isDq c = false ∧ isSq c = false := by
  obtain ⟨h₁, h₂⟩ := isDigitChar_toNat h
  refine ⟨?_, ?_, ?_⟩ <;> simp [isPyWs, isDq, isSq] <;> omega

theorem dropWhile_eq_self (p : Char → Bool) (l : PyStr) (h : ∀ c ∈ l, p c = false) :
    l.dropWhile p = l := by
  cases l with
  | nil => rfl
  | cons a t => simp [List.dropWhile_cons, h a (List.mem_cons_self a t)]

theorem pyStripFn_eq_self (p : Char → Bool) (l : PyStr) (h : ∀ c ∈ l, p c = false) :
    pyStripFn p l = l := by
  rw [pyStripFn, dropTrailingWhile, dropWhile_eq_self p l h,
    dropWhile_eq_self p l.reverse (fun c hc => h c (List.mem_reverse.mp hc)),
    List.reverse_reverse]

theorem pyStripQuotes_eq_self (l : PyStr)
    (h : ∀ c ∈ l, isPyWs c = false ∧ isDq c = false ∧ isSq c = false) :
    pyStripQuotes l = l := by
  rw [pyStripQuotes, pyStripFn_eq_self isPyWs l (fun c hc => (h c hc).1),
    pyStripFn_eq_self isDq l (fun c hc => (h c hc).2.1),
    pyStripFn_eq_self isSq l (fun c hc => (h c hc).2.2)]

/-- Removing the pattern `ab` from `ds ++ [a, b]` strips exactly the suffix
when `a` does not occur in `ds`. -/
theorem pyReplace2_append_pair (a b : Char) (ds : PyStr) (h : ∀ c ∈ ds, c ≠ a) :
    pyReplace2 a b (ds ++ [a, b]) = ds := by
  induction ds with
  | nil => simp [pyReplace2]
  | cons d tl ih =>
    have hd : d ≠ a := h d (List.mem_cons_self d tl)
    cases tl with
    | nil => simp [pyReplace2, hd]
    | cons e tl₂ =>
      have htl : pyReplace2 a b ((e :: tl₂) ++ [a, b]) = e :: tl₂ :=
        ih (fun c hc => h c (List.mem_cons_of_mem d hc))
      calc pyReplace2 a b ((d :: e :: tl₂) ++ [a, b])
          = d :: pyReplace2 a b ((e :: tl₂) ++ [a, b]) := by
            simp [pyReplace2, hd]
        _ = d :: e :: tl₂ := by rw [htl]

/-- `int(...)` on a nonempty all-digit string returns its decimal value. -/
theorem pyInt_digits (ds : PyStr) (h₁ : ds ≠ [])
    (h₂ : ∀ c ∈ ds, isDigitChar c = true) :
    pyInt ds = some ((digitsToNat ds : ℤ)) := by
  have hplain : ∀ c ∈ ds, isPyWs c = false := fun c hc => (digit_not_special (h₂ c hc)).1
  rcases ds with _ | ⟨c, rest⟩
  · exact absurd rfl h₁
  · have hc48 := isDigitChar_toNat (h₂ c (List.mem_cons_self c rest))
    rw [pyInt]
    rw [pyStripFn_eq_self isPyWs (c :: rest) hplain]
    show (if c.toNat = 45 then
        if rest ≠ [] ∧ rest.all isDigitChar then some (-(digitsToNat rest : ℤ)) else none
      else if c.toNat = 43 then
        if rest ≠ [] ∧ rest.all isDigitChar then some ((digitsToNat rest : ℤ)) else none
      else if (c :: rest).all isDigitChar then some ((digitsToNat (c :: rest) : ℤ)) else none)
      = some ((digitsToNat (c :: rest) : ℤ))
    rw [if_neg (by omega), if_neg (by omega), if_pos]
    exact List.all_eq_true.mpr h₂

/-- A two-character suffix of `l ++ [c, d]` must be `[c, d]` itself. -/
theorem suffix_pair_eq {a b c d : Char} {l : PyStr} (h : [a, b] <:+ l ++ [c, d]) :
    a = c ∧ b = d := by
  obtain ⟨t, ht⟩ := h
  have := (List.append_inj' ht.symm (by simp)).2
  simp at this
  exact ⟨this.1.symm, this.2.symm⟩

/-- An all-digit string has no suffix ending in `i`. -/
theorem no_i_suffix {x : Char} {ds : PyStr} (h₂ : ∀ c ∈ ds, isDigitChar c = true)
    (h : [x, 'i'] <:+ ds) : False := by
  obtain ⟨t, ht⟩ := h
  have hi : 'i' ∈ ds := by
    rw [← ht]
    simp
  have hrange := isDigitChar_toNat (h₂ 'i' hi)
  have h105 : ('i').toNat = 105 := rfl
  omega

/-- An all-digit string contains no character above code point 57. -/
theorem digits_ne (x : Char) (hx : 57 < x.toNat) (ds : PyStr)
    (h₂ : ∀ c ∈ ds, isDigitChar c = true) : ∀ c ∈ ds, c ≠ x := by
  intro c hc heq
  have hr := isDigitChar_toNat (h₂ c hc)
  rw [heq] at hr
  omega

/-- Stripping is the identity on an all-digit string. -/
theorem pyStripQuotes_digits (ds : PyStr) (h₂ : ∀ c ∈ ds, isDigitChar c = true) :
    pyStripQuotes ds = ds :=
  pyStripQuotes_eq_self ds (fun c hc => digit_not_special (h₂ c hc))

/-- Stripping is the identity on an all-digit string followed by a unit
suffix `xi` with `x` itself unstripped. -/
theorem pyStripQuotes_digits_suffix (x : Char)
    (hx : isPyWs x = false ∧ isDq x = false ∧ isSq x = false) (ds : PyStr)
    (h₂ : ∀ c ∈ ds, isDigitChar c = true) :
    pyStripQuotes (ds ++ [x, 'i']) = ds ++ [x, 'i'] := by
  refine pyStripQuotes_eq_self _ ?_
  intro c hc
  rcases List.mem_append.mp hc with h | h
  · exact digit_not_special (h₂ c h)
  · simp at h
    rcases h with rfl | rfl
    · exact hx
    · exact ⟨by decide, by decide, by decide⟩

/-- C3: `_parse_memory_to_mib` strips surrounding whitespace and quote
characters, then converts with integer floor arithmetic: an all-digit value
suffixed `Ki` yields `value // 1024`, suffixed `Mi` yields the value
unchanged, suffixed `Gi` yields `value × 1024`, and an unsuffixed value is
raw bytes, yielding `value // 1048576`; in particular
`1024Ki → 1`, `512Mi → 512`, `2Gi → 2048`, `1048576 → 1`, and a quoted,
space-padded `1024Ki` still parses to 1. -/
theorem parse_memory_spec (ds : PyStr) (h₁ : ds ≠ [])
    (h₂ : ∀ c ∈ ds, isDigitChar c = true) :
    _parse_memory_to_mib (ds ++ ['K','i']) = some (Int.fdiv (digitsToNat ds : ℤ) 1024) ∧
    _parse_memory_to_mib (ds ++ ['M','i']) = some ((digitsToNat ds : ℤ)) ∧
    _parse_memory_to_mib (ds ++ ['G','i']) = some ((digitsToNat ds : ℤ) * 1024) ∧
    _parse_memory_to_mib ds = some (Int.fdiv (digitsToNat ds : ℤ) 1048576) ∧
    _parse_memory_to_mib ("1024Ki".toList) = some 1 ∧
    _parse_memory_to_mib ("512Mi".toList) = some 512 ∧
    _parse_memory_to_mib ("2Gi".toList) = some 2048 ∧
    _parse_memory_to_mib ("1048576".toList) = some 1 ∧
    _parse_memory_to_mib
      (' ' :: (Char.ofNat 34 :: ("1024Ki".toList ++ [Char.ofNat 34, ' ']))) = some 1 := by
  refine ⟨?_, ?_, ?_, ?_, by decide, by decide, by decide, by decide, by decide⟩
  · simp only [_parse_memory_to_mib]
    rw [pyStripQuotes_digits_suffix 'K' ⟨by decide, by decide, by decide⟩ ds h₂,
      if_pos (List.suffix_append ds ['K','i']),
      pyReplace2_append_pair 'K' 'i' ds (digits_ne 'K' (by decide) ds h₂),
      pyInt_digits ds h₁ h₂]
    rfl
  · simp only [_parse_memory_to_mib]
    rw [pyStripQuotes_digits_suffix 'M' ⟨by decide, by decide, by decide⟩ ds h₂,
      if_neg (fun h => absurd (suffix_pair_eq h).1 (by decide)),
      if_pos (List.suffix_append ds ['M','i']),
      pyReplace2_append_pair 'M' 'i' ds (digits_ne 'M' (by decide) ds h₂),
      pyInt_digits ds h₁ h₂]
  · simp only [_parse_memory_to_mib]
    rw [pyStripQuotes_digits_suffix 'G' ⟨by decide, by decide, by decide⟩ ds h₂,
      if_neg (fun h => absurd (suffix_pair_eq h).1 (by decide)),
      if_neg (fun h => absurd (suffix_pair_eq h).1 (by decide)),
      if_pos (List.suffix_append ds ['G','i']),
      pyReplace2_append_pair 'G' 'i' ds (digits_ne 'G' (by decide) ds h₂),
      pyInt_digits ds h₁ h₂]
    rfl
  · simp only [_parse_memory_to_mib]
    rw [pyStripQuotes_digits ds h₂,
      if_neg (fun h => no_i_suffix h₂ h),
      if_neg (fun h => no_i_suffix h₂ h),
      if_neg (fun h => no_i_suffix h₂ h),
      pyInt_digits ds h₁ h₂]
    norm_num

/-- C3 witness: the general suffix conversions applied at the digit string
`7`. -/
theorem parse_memory_spec_witness :
    (['7'] : PyStr) ≠ [] ∧
    _parse_memory_to_mib (['7'] ++ ['K','i']) =
      some (Int.fdiv (digitsToNat ['7'] : ℤ) 1024) ∧
    _parse_memory_to_mib (['7'] ++ ['G','i']) = some ((digitsToNat ['7'] : ℤ) * 1024) := by
  have h := parse_memory_spec ['7'] (by decide) (by decide)
  exact ⟨by decide, h.1, h.2.2.1⟩
